import Mathlib

/-!
Verification of the server-monitoring agent (`src/main.go`).

The program polls a stats endpoint, parses one comma-separated response line
into a `ServerStats` record, and prints threshold warnings.  We shallowly
embed the pure core: the parsing section of `fetchServerStats` (everything
after the transport has delivered the trimmed response line), the evaluator
`checkThresholds`, and the poll loop's consecutive-error-counter logic.
Go `uint64` arithmetic is modelled as `Nat` with the wrap `% 2^64` made
explicit where the code can underflow, and Go `float64` arithmetic is
idealised as exact rational arithmetic.
-/

/-- Width modulus of Go's `uint64`: subtraction wraps modulo this. -/
def u64Mod : Nat := 2 ^ 64

/-- Go `uint64` subtraction `a - b` (wrap-around), for `a b < u64Mod`. -/
def usub64 (a b : Nat) : Nat := (a + u64Mod - b) % u64Mod

/-- Go `math.Round`: round half away from zero. -/
def goRound (q : ℚ) : ℤ := if 0 ≤ q then ⌊q + 1/2⌋ else -⌊-q + 1/2⌋

/-- Formatting a float with `%.0f`: round to nearest, ties to even. -/
def fmtRound (q : ℚ) : ℤ :=
  if q - (⌊q⌋ : ℚ) < 1/2 then ⌊q⌋
  else if 1/2 < q - (⌊q⌋ : ℚ) then ⌊q⌋ + 1
  else if 2 ∣ ⌊q⌋ then ⌊q⌋ else ⌊q⌋ + 1

/-- `ServerStats` from `src/main.go` lines 162-170.  `uint64` fields become
`Nat`, `float64` becomes `ℚ`. -/
structure ServerStats where
  loadAverage : ℚ
  totalMemory : Nat
  usedMemory : Nat
  totalDisk : Nat
  usedDisk : Nat
  networkBandwidth : Nat
  networkUsage : Nat
  deriving DecidableEq, Repr

/-- Threshold and unit constants from `src/main.go` lines 17-25. -/
def loadThreshold : ℚ := 30.0

def memoryUsageThreshold : ℚ := 0.8

def diskUsageThreshold : ℚ := 0.9

def networkUsageThreshold : ℚ := 0.9

def bytesInMb : Nat := 1024 * 1024

def maxErrors : Nat := 3

/-- One warning line printed by `checkThresholds`; the payload is the
rounded number appearing in the printed message. -/
inductive Warning where
  | loadW (v : ℤ)
  | memW (percent : ℤ)
  | diskW (mbLeft : ℤ)
  | netW (mbitAvail : ℤ)
  deriving DecidableEq, Repr

/-- Load block of `checkThresholds` (`src/main.go` lines 126-128); the
`%.0f` verb prints the load average rounded to the nearest integer. -/
def loadWarnings (s : ServerStats) : List Warning :=
  if s.loadAverage > loadThreshold then [Warning.loadW (fmtRound s.loadAverage)] else []

/-- Memory block of `checkThresholds` (`src/main.go` lines 131-137); the
source's local `memoryUsage` ratio is written inline. -/
def memoryWarnings (s : ServerStats) : List Warning :=
  if s.totalMemory > 0 then
    if (s.usedMemory : ℚ) / (s.totalMemory : ℚ) > memoryUsageThreshold then
      [Warning.memW (goRound ((s.usedMemory : ℚ) / (s.totalMemory : ℚ) * 100))]
    else []
  else []

/-- Disk block of `checkThresholds` (`src/main.go` lines 140-146).
`stats.TotalDisk - stats.UsedDisk` is `uint64` subtraction, hence `usub64`. -/
def diskWarnings (s : ServerStats) : List Warning :=
  if s.totalDisk > 0 then
    if (s.usedDisk : ℚ) / (s.totalDisk : ℚ) > diskUsageThreshold then
      [Warning.diskW (goRound ((usub64 s.totalDisk s.usedDisk : ℚ) / (bytesInMb : ℚ)))]
    else []
  else []

/-- Network block of `checkThresholds` (`src/main.go` lines 149-158):
guarded by `NetworkBandwidth > 0 && NetworkUsage > 0`; the free bandwidth
`NetworkBandwidth - NetworkUsage` (uint64) is converted bytes/s → Mbit/s. -/
def networkWarnings (s : ServerStats) : List Warning :=
  if s.networkBandwidth > 0 ∧ s.networkUsage > 0 then
    if (s.networkUsage : ℚ) / (s.networkBandwidth : ℚ) > networkUsageThreshold then
      [Warning.netW (goRound ((usub64 s.networkBandwidth s.networkUsage : ℚ) * 8 / 1000000))]
    else []
  else []

/-- `checkThresholds` (`src/main.go` lines 124-159): the four blocks run in
source order, each appending its warnings to the printed output. -/
def checkThresholds (s : ServerStats) : List Warning :=
  loadWarnings s ++ memoryWarnings s ++ diskWarnings s ++ networkWarnings s

/-- Recogniser for memory warnings (used to count them in the output). -/
def isMemW : Warning → Bool
  | .memW _ => true
  | _ => false

/-- Position of each warning kind in the evaluator's fixed output order. -/
def warningKind : Warning → Nat
  | .loadW _ => 0
  | .memW _ => 1
  | .diskW _ => 2
  | .netW _ => 3

/-- Fetch errors surfaced by the parsing section of `fetchServerStats`:
a wrong field count, or a field (given by index) failing numeric parsing. -/
inductive FetchError where
  | formatError (got : Nat)
  | parseError (field : Nat)
  deriving DecidableEq, Repr

/-- Value of a digit string, for `strconv` parsing. -/
def digitsVal (cs : List Char) : Nat :=
  cs.foldl (fun a c => a * 10 + (c.toNat - 48)) 0

/-- Splitter underlying `strings.Split(line, ",")` for a one-character
separator: every occurrence of `sep` starts a new field, empty fields kept. -/
def splitSepAux (sep : Char) : List Char → List Char → List (List Char)
  | [], acc => [acc.reverse]
  | c :: cs, acc =>
    if c = sep then acc.reverse :: splitSepAux sep cs []
    else splitSepAux sep cs (c :: acc)

/-- `strings.Split` on a one-character separator. -/
def splitSep (sep : Char) (cs : List Char) : List (List Char) :=
  splitSepAux sep cs []

/-- Go `strconv.ParseUint(s, 10, 64)`: a non-empty all-digit string whose
value fits in 64 bits (out-of-range values return an error). -/
def parseUint (cs : List Char) : Option Nat :=
  if cs ≠ [] ∧ cs.all Char.isDigit then
    if digitsVal cs < u64Mod then some (digitsVal cs) else none
  else none

/-- Magnitude part of `strconv.ParseFloat`, idealised to exact rationals and
restricted to the plain decimal forms `digits[.digits]` the stats feed
carries (exponent/hex/inf forms are never exercised by the claims). -/
def parseFloatMag (cs : List Char) : Option ℚ :=
  match splitSep '.' cs with
  | [ip] =>
    if ip ≠ [] ∧ ip.all Char.isDigit then some (digitsVal ip : ℚ) else none
  | [ip, fp] =>
    if ip.length + fp.length > 0 ∧ ip.all Char.isDigit ∧ fp.all Char.isDigit then
      some ((digitsVal ip : ℚ) + (digitsVal fp : ℚ) / (10 : ℚ) ^ fp.length)
    else none
  | _ => none

/-- Go `strconv.ParseFloat(s, 64)` with an optional leading sign. -/
def parseFloat (cs : List Char) : Option ℚ :=
  match cs with
  | '-' :: rest => (parseFloatMag rest).map (fun q => -q)
  | '+' :: rest => parseFloatMag rest
  | _ => parseFloatMag cs

/-- Parsing section of `fetchServerStats` (`src/main.go` lines 70-121):
split the trimmed response line on commas, reject fewer than six fields
with the wrong-count error, parse fields 0-5 in order, and — when no
seventh field is present — zero BOTH network fields (lines 115-119); with a
seventh field, parse it as the network usage (fields past the seventh are
ignored). -/
def parseStatsLine (line : String) : Except FetchError ServerStats :=
  match splitSep ',' line.data with
  | v0 :: v1 :: v2 :: v3 :: v4 :: v5 :: rest =>
    match parseFloat v0 with
    | none => .error (.parseError 0)
    | some loadAverage =>
    match parseUint v1 with
    | none => .error (.parseError 1)
    | some totalMemory =>
    match parseUint v2 with
    | none => .error (.parseError 2)
    | some usedMemory =>
    match parseUint v3 with
    | none => .error (.parseError 3)
    | some totalDisk =>
    match parseUint v4 with
    | none => .error (.parseError 4)
    | some usedDisk =>
    match parseUint v5 with
    | none => .error (.parseError 5)
    | some networkBandwidth =>
    match rest with
    | v6 :: _ =>
      match parseUint v6 with
      | none => .error (.parseError 6)
      | some networkUsage =>
        .ok { loadAverage, totalMemory, usedMemory, totalDisk, usedDisk,
              networkBandwidth, networkUsage }
    | [] =>
      .ok { loadAverage, totalMemory, usedMemory, totalDisk, usedDisk,
            networkBandwidth := 0, networkUsage := 0 }
  | values => .error (.formatError values.length)

instance : DecidableEq (Except FetchError ServerStats) := fun a b =>
  match a, b with
  | .ok x, .ok y => if h : x = y then isTrue (by rw [h]) else isFalse (by simp [h])
  | .error x, .error y => if h : x = y then isTrue (by rw [h]) else isFalse (by simp [h])
  | .ok _, .error _ => isFalse (by simp)
  | .error _, .ok _ => isFalse (by simp)

/-- Result of one fetch attempt, as seen by the poll loop. -/
inductive FetchOutcome where
  | success (stats : ServerStats)
  | failure
  deriving DecidableEq, Repr

/-- Console lines the poll loop produces. -/
inductive OutputLine where
  | errorFetching
  | unableToFetch
  | warning (w : Warning)
  deriving DecidableEq, Repr

/-- The poll loop of `main` (`src/main.go` lines 33-50), observed over a
finite trace of fetch outcomes.  On failure it prints the fetch error,
increments the consecutive-error counter, and when the counter reaches
`maxErrors` prints "Unable to fetch server statistic" and returns
(fail-stop); on success it resets the counter to zero and prints the
evaluator's warnings. -/
def pollLoop (errorCount : Nat) : List FetchOutcome → List OutputLine
  | [] => []
  | .failure :: rest =>
    OutputLine.errorFetching ::
      (if errorCount + 1 ≥ maxErrors then [OutputLine.unableToFetch]
       else pollLoop (errorCount + 1) rest)
  | .success stats :: rest =>
    (checkThresholds stats).map OutputLine.warning ++ pollLoop 0 rest

/-- The snapshot the fetcher builds from the spec's end-to-end input line
`"35,1000,850,2000,1950,500"` (six fields, so both network fields zeroed). -/
def sampleStats : ServerStats :=
  { loadAverage := 35, totalMemory := 1000, usedMemory := 850,
    totalDisk := 2000, usedDisk := 1950, networkBandwidth := 0, networkUsage := 0 }

theorem loadWarnings_ne_nil (s : ServerStats) :
    loadWarnings s ≠ [] ↔ loadThreshold < s.loadAverage := by
  unfold loadWarnings; split <;> simp_all

theorem memoryWarnings_ne_nil (s : ServerStats) :
    memoryWarnings s ≠ [] ↔
      0 < s.totalMemory ∧
        memoryUsageThreshold < (s.usedMemory : ℚ) / (s.totalMemory : ℚ) := by
  unfold memoryWarnings
  split
  · split <;> simp_all
  · simp_all

theorem diskWarnings_ne_nil (s : ServerStats) :
    diskWarnings s ≠ [] ↔
      0 < s.totalDisk ∧
        diskUsageThreshold < (s.usedDisk : ℚ) / (s.totalDisk : ℚ) := by
  unfold diskWarnings
  split
  · split <;> simp_all
  · simp_all

theorem networkWarnings_ne_nil (s : ServerStats) :
    networkWarnings s ≠ [] ↔
      (0 < s.networkBandwidth ∧ 0 < s.networkUsage) ∧
        networkUsageThreshold < (s.networkUsage : ℚ) / (s.networkBandwidth : ℚ) := by
  unfold networkWarnings
  split
  · split <;> simp_all
  · simp_all

theorem loadWarnings_shape (s : ServerStats) :
    loadWarnings s = [] ∨ ∃ v, loadWarnings s = [Warning.loadW v] := by
  unfold loadWarnings; split
  · exact Or.inr ⟨_, rfl⟩
  · exact Or.inl rfl

theorem memoryWarnings_shape (s : ServerStats) :
    memoryWarnings s = [] ∨ ∃ v, memoryWarnings s = [Warning.memW v] := by
  unfold memoryWarnings
  split
  · split
    · exact Or.inr ⟨_, rfl⟩
    · exact Or.inl rfl
  · exact Or.inl rfl

theorem diskWarnings_shape (s : ServerStats) :
    diskWarnings s = [] ∨ ∃ v, diskWarnings s = [Warning.diskW v] := by
  unfold diskWarnings
  split
  · split
    · exact Or.inr ⟨_, rfl⟩
    · exact Or.inl rfl
  · exact Or.inl rfl

theorem networkWarnings_shape (s : ServerStats) :
    networkWarnings s = [] ∨ ∃ v, networkWarnings s = [Warning.netW v] := by
  unfold networkWarnings
  split
  · split
    · exact Or.inr ⟨_, rfl⟩
    · exact Or.inl rfl
  · exact Or.inl rfl

theorem checkThresholds_sample :
    checkThresholds sampleStats = [Warning.loadW 35, Warning.memW 85, Warning.diskW 0] := by
  unfold checkThresholds loadWarnings memoryWarnings diskWarnings networkWarnings sampleStats
  norm_num [loadThreshold, memoryUsageThreshold, diskUsageThreshold, networkUsageThreshold,
    goRound, fmtRound, usub64, u64Mod, bytesInMb]

/-- Claim C1: the line "35,1000,850,2000,1950,500" parses to a snapshot on
which the evaluator emits exactly three warnings, in order: load 35,
memory 85%, and 0 Mb of free disk; no network warning appears here since
the six-field fetch zeroes both network fields. -/
theorem c1_end_to_end :
    parseStatsLine "35,1000,850,2000,1950,500" = Except.ok sampleStats ∧
    checkThresholds sampleStats = [Warning.loadW 35, Warning.memW 85, Warning.diskW 0] ∧
    pollLoop 0 [FetchOutcome.success sampleStats] =
      [OutputLine.warning (Warning.loadW 35), OutputLine.warning (Warning.memW 85),
       OutputLine.warning (Warning.diskW 0)] := by
  refine ⟨by decide, checkThresholds_sample, ?_⟩
  show (checkThresholds sampleStats).map OutputLine.warning ++ pollLoop 0 [] = _
  rw [checkThresholds_sample]
  rfl

/-- Claim C4: whenever the memory total is positive and the usage ratio
exceeds 0.8, the evaluator's output contains exactly one memory warning,
and its percentage is the usage ratio times 100 rounded to the nearest
integer. -/
theorem c4_memory_warning (s : ServerStats) (h1 : 0 < s.totalMemory)
    (h2 : (0.8 : ℚ) < (s.usedMemory : ℚ) / (s.totalMemory : ℚ)) :
    (checkThresholds s).filter isMemW =
      [Warning.memW (goRound ((s.usedMemory : ℚ) / (s.totalMemory : ℚ) * 100))] := by
  have hl : (loadWarnings s).filter isMemW = [] := by
    rcases loadWarnings_shape s with h | ⟨v, h⟩ <;> simp [h, isMemW]
  have hd : (diskWarnings s).filter isMemW = [] := by
    rcases diskWarnings_shape s with h | ⟨v, h⟩ <;> simp [h, isMemW]
  have hn : (networkWarnings s).filter isMemW = [] := by
    rcases networkWarnings_shape s with h | ⟨v, h⟩ <;> simp [h, isMemW]
  have hm : (memoryWarnings s).filter isMemW =
      [Warning.memW (goRound ((s.usedMemory : ℚ) / (s.totalMemory : ℚ) * 100))] := by
    have h2' : (s.usedMemory : ℚ) / (s.totalMemory : ℚ) > memoryUsageThreshold := h2
    unfold memoryWarnings
    rw [if_pos h1, if_pos h2']
    simp [isMemW]
  unfold checkThresholds
  rw [List.filter_append, List.filter_append, List.filter_append, hl, hd, hn, hm]
  rfl

/-- Claim C4 witness: on the end-to-end sample snapshot the single memory
warning reads 85%. -/
theorem c4_memory_warning_witness :
    (checkThresholds sampleStats).filter isMemW = [Warning.memW 85] := by
  have h := c4_memory_warning sampleStats (by norm_num [sampleStats]) (by norm_num [sampleStats])
  rw [h]
  norm_num [sampleStats, goRound]

/-- Claim C5: each metric's warning is emitted exactly when its value or
ratio is strictly greater than its threshold (30.0, 0.8, 0.9, 0.9), the
check being gated by the code's positivity guards; at or below the
threshold no warning is emitted. -/
theorem c5_strict_thresholds (s : ServerStats) :
    (loadWarnings s ≠ [] ↔ (30.0 : ℚ) < s.loadAverage) ∧
    (memoryWarnings s ≠ [] ↔
      0 < s.totalMemory ∧ (0.8 : ℚ) < (s.usedMemory : ℚ) / (s.totalMemory : ℚ)) ∧
    (diskWarnings s ≠ [] ↔
      0 < s.totalDisk ∧ (0.9 : ℚ) < (s.usedDisk : ℚ) / (s.totalDisk : ℚ)) ∧
    (networkWarnings s ≠ [] ↔
      (0 < s.networkBandwidth ∧ 0 < s.networkUsage) ∧
        (0.9 : ℚ) < (s.networkUsage : ℚ) / (s.networkBandwidth : ℚ)) :=
  ⟨loadWarnings_ne_nil s, memoryWarnings_ne_nil s, diskWarnings_ne_nil s,
   networkWarnings_ne_nil s⟩

/-- Claim C5 witness: the sample snapshot's load of 35 strictly exceeds 30,
so the load warning fires. -/
theorem c5_strict_thresholds_witness : loadWarnings sampleStats ≠ [] :=
  (c5_strict_thresholds sampleStats).1.mpr (by norm_num [sampleStats])

/-- Claim C6: a zero total (memory, disk, or network bandwidth) makes the
corresponding block return no warning — its ratio is never formed — while
the evaluator is the unconditional concatenation of the four independent
blocks, so all other checks still run. -/
theorem c6_zero_total_guard (s : ServerStats) :
    (s.totalMemory = 0 → memoryWarnings s = []) ∧
    (s.totalDisk = 0 → diskWarnings s = []) ∧
    (s.networkBandwidth = 0 → networkWarnings s = []) ∧
    checkThresholds s = loadWarnings s ++ memoryWarnings s ++ diskWarnings s ++ networkWarnings s := by
  refine ⟨?_, ?_, ?_, rfl⟩
  · intro h; unfold memoryWarnings; rw [if_neg (by omega)]
  · intro h; unfold diskWarnings; rw [if_neg (by omega)]
  · intro h; unfold networkWarnings; rw [if_neg (by omega)]

/-- Claim C6 witness: with a zero memory total the memory check is
suppressed. -/
theorem c6_zero_total_guard_witness :
    memoryWarnings { loadAverage := 35, totalMemory := 0, usedMemory := 850,
                     totalDisk := 2000, usedDisk := 1950,
                     networkBandwidth := 500, networkUsage := 400 } = [] :=
  (c6_zero_total_guard _).1 rfl

/-- Claim C8: mapping each emitted warning to its metric's position, the
evaluator's output is always a subsequence of [load, memory, disk,
network] — the fixed order, with at most one warning per metric. -/
theorem c8_fixed_order (s : ServerStats) :
    ((checkThresholds s).map warningKind).Sublist [0, 1, 2, 3] := by
  unfold checkThresholds
  rcases loadWarnings_shape s with h1 | ⟨v1, h1⟩ <;>
    rcases memoryWarnings_shape s with h2 | ⟨v2, h2⟩ <;>
    rcases diskWarnings_shape s with h3 | ⟨v3, h3⟩ <;>
    rcases networkWarnings_shape s with h4 | ⟨v4, h4⟩ <;>
    rw [h1, h2, h3, h4] <;> simp [warningKind]

/-- Claim C8 witness: the sample snapshot's three warnings are in the fixed
order. -/
theorem c8_fixed_order_witness :
    ((checkThresholds sampleStats).map warningKind).Sublist [0, 1, 2, 3] :=
  c8_fixed_order sampleStats

/-- Claim C9: a snapshot violating `used ≤ total` (with the total positive)
is still evaluated — the evaluator is a total function — and the
corresponding warning fires, its ratio exceeding 1 and hence the
threshold. -/
theorem c9_invariant_violation (s : ServerStats) :
    (0 < s.totalMemory → s.totalMemory < s.usedMemory → memoryWarnings s ≠ []) ∧
    (0 < s.totalDisk → s.totalDisk < s.usedDisk → diskWarnings s ≠ []) ∧
    (0 < s.networkBandwidth → s.networkBandwidth < s.networkUsage → networkWarnings s ≠ []) := by
  refine ⟨fun h1 h2 => ?_, fun h1 h2 => ?_, fun h1 h2 => ?_⟩
  · refine (memoryWarnings_ne_nil s).mpr ⟨h1, ?_⟩
    have hr : (1 : ℚ) < (s.usedMemory : ℚ) / (s.totalMemory : ℚ) :=
      (one_lt_div (by exact_mod_cast h1)).mpr (by exact_mod_cast h2)
    calc memoryUsageThreshold < 1 := by norm_num [memoryUsageThreshold]
      _ < _ := hr
  · refine (diskWarnings_ne_nil s).mpr ⟨h1, ?_⟩
    have hr : (1 : ℚ) < (s.usedDisk : ℚ) / (s.totalDisk : ℚ) :=
      (one_lt_div (by exact_mod_cast h1)).mpr (by exact_mod_cast h2)
    calc diskUsageThreshold < 1 := by norm_num [diskUsageThreshold]
      _ < _ := hr
  · refine (networkWarnings_ne_nil s).mpr ⟨⟨h1, by omega⟩, ?_⟩
    have hr : (1 : ℚ) < (s.networkUsage : ℚ) / (s.networkBandwidth : ℚ) :=
      (one_lt_div (by exact_mod_cast h1)).mpr (by exact_mod_cast h2)
    calc networkUsageThreshold < 1 := by norm_num [networkUsageThreshold]
      _ < _ := hr

/-- Claim C9 witness: an over-full memory snapshot (2000 used of 1000
total) still yields a memory warning. -/
theorem c9_invariant_violation_witness :
    memoryWarnings { loadAverage := 0, totalMemory := 1000, usedMemory := 2000,
                     totalDisk := 0, usedDisk := 0,
                     networkBandwidth := 0, networkUsage := 0 } ≠ [] :=
  (c9_invariant_violation _).1 (by norm_num) (by norm_num)

/-- Claim C10: when the disk is over-full, the `uint64` subtraction
`TotalDisk - UsedDisk` wraps, so the warning reports
`(totalDisk - usedDisk) mod 2^64` bytes converted to MiB — a huge positive
figure `2^64 - (usedDisk - totalDisk)`, never a negative one. -/
theorem c10_disk_underflow (s : ServerStats) (h1 : 0 < s.totalDisk)
    (h2 : s.totalDisk < s.usedDisk) (h3 : s.usedDisk < u64Mod) :
    diskWarnings s =
      [Warning.diskW (goRound ((usub64 s.totalDisk s.usedDisk : ℚ) / (bytesInMb : ℚ)))] ∧
    usub64 s.totalDisk s.usedDisk = u64Mod - (s.usedDisk - s.totalDisk) ∧
    0 < usub64 s.totalDisk s.usedDisk := by
  have hm : u64Mod = 18446744073709551616 := by norm_num [u64Mod]
  have hwrap : usub64 s.totalDisk s.usedDisk = u64Mod - (s.usedDisk - s.totalDisk) := by
    unfold usub64
    rw [hm] at h3 ⊢
    omega
  have hr : (1 : ℚ) < (s.usedDisk : ℚ) / (s.totalDisk : ℚ) :=
    (one_lt_div (by exact_mod_cast h1)).mpr (by exact_mod_cast h2)
  have hpos : 0 < usub64 s.totalDisk s.usedDisk := by
    rw [hwrap, hm]
    rw [hm] at h3
    omega
  refine ⟨?_, hwrap, hpos⟩
  have hr' : (s.usedDisk : ℚ) / (s.totalDisk : ℚ) > diskUsageThreshold :=
    calc diskUsageThreshold < 1 := by norm_num [diskUsageThreshold]
      _ < _ := hr
  unfold diskWarnings
  rw [if_pos h1, if_pos hr']

/-- Claim C10 witness: 2000 bytes used of a 1000-byte disk reports
`2^64 - 1000` free bytes. -/
theorem c10_disk_underflow_witness :
    usub64 1000 2000 = 18446744073709550616 := by
  have h := c10_disk_underflow
    { loadAverage := 0, totalMemory := 0, usedMemory := 0, totalDisk := 1000,
      usedDisk := 2000, networkBandwidth := 0, networkUsage := 0 }
    (by norm_num) (by norm_num) (by norm_num [u64Mod])
  have h2 := h.2.1
  simpa [u64Mod] using h2

theorem parseStatsLine_no_format_of_six (line : String) (a b c d e f : List Char)
    (t : List (List Char))
    (hvs : splitSep ',' line.data = a :: b :: c :: d :: e :: f :: t) (n : Nat) :
    parseStatsLine line ≠ Except.error (FetchError.formatError n) := by
  simp only [parseStatsLine, hvs]
  repeat' split
  all_goals simp

theorem parseStatsLine_ok_six (line : String) (a b c d e f : List Char)
    (s : ServerStats)
    (hvs : splitSep ',' line.data = [a, b, c, d, e, f])
    (hok : parseStatsLine line = Except.ok s) :
    s.networkUsage = 0 ∧ s.networkBandwidth = 0 := by
  simp only [parseStatsLine, hvs] at hok
  repeat' split at hok
  all_goals first
    | exact Except.noConfusion hok
    | (injection hok with h; subst h; exact ⟨rfl, rfl⟩)

theorem parseStatsLine_ok_seven (line : String) (a b c d e f g : List Char)
    (s : ServerStats)
    (hvs : splitSep ',' line.data = [a, b, c, d, e, f, g])
    (hok : parseStatsLine line = Except.ok s) :
    parseUint g = some s.networkUsage ∧ parseUint f = some s.networkBandwidth := by
  simp only [parseStatsLine, hvs] at hok
  repeat' split at hok
  all_goals first
    | exact Except.noConfusion hok
    | (injection hok with h; subst h; simp_all)

theorem parseStatsLine_short (line : String)
    (h : (splitSep ',' line.data).length = 5) :
    parseStatsLine line = Except.error (FetchError.formatError 5) := by
  unfold parseStatsLine
  rcases hvs : splitSep ',' line.data with _ | ⟨a, _ | ⟨b, _ | ⟨c, _ | ⟨d, _ | ⟨e, _ | ⟨f, t⟩⟩⟩⟩⟩⟩ <;>
    simp_all

/-- Claim C2: on a successfully parsed six-field line the snapshot's
network-usage field equals its network-bandwidth field (both are zeroed by
lines 115-119 of `src/main.go`), and with a seventh field present the
network usage is that field's parsed value verbatim. -/
theorem c2_used_network_policy :
    (∀ (line : String) (s : ServerStats), (splitSep ',' line.data).length = 6 →
        parseStatsLine line = Except.ok s → s.networkUsage = s.networkBandwidth) ∧
    (∀ (line : String) (v0 v1 v2 v3 v4 v5 v6 : List Char) (s : ServerStats),
        splitSep ',' line.data = [v0, v1, v2, v3, v4, v5, v6] →
        parseStatsLine line = Except.ok s → parseUint v6 = some s.networkUsage) := by
  constructor
  · intro line s h hok
    rcases hvs : splitSep ',' line.data with
        _ | ⟨a, _ | ⟨b, _ | ⟨c, _ | ⟨d, _ | ⟨e, _ | ⟨f, _ | ⟨g, t⟩⟩⟩⟩⟩⟩⟩ <;> rw [hvs] at h <;>
      simp_all
    obtain ⟨h1, h2⟩ := parseStatsLine_ok_six line a b c d e f s hvs hok
    rw [h1, h2]
  · intro line v0 v1 v2 v3 v4 v5 v6 s hvs hok
    exact (parseStatsLine_ok_seven line v0 v1 v2 v3 v4 v5 v6 s hvs hok).1

/-- Claim C2 witness: the end-to-end sample line has six fields, parses
successfully, and its snapshot satisfies the equal-fields policy. -/
theorem c2_used_network_policy_witness :
    sampleStats.networkUsage = sampleStats.networkBandwidth :=
  c2_used_network_policy.1 "35,1000,850,2000,1950,500" sampleStats (by decide) (by decide)

/-- Claim C3 counterexample: the seven-field line
"35,1000,850,2000,1950,500,400" is ACCEPTED by the fetcher of
`src/main.go` — the seventh field becomes the network usage — rather than
rejected with a wrong-field-count error as the claim asserts. -/
theorem c3_seven_fields_accepted :
    parseStatsLine "35,1000,850,2000,1950,500,400" =
      Except.ok { loadAverage := 35, totalMemory := 1000, usedMemory := 850,
                  totalDisk := 2000, usedDisk := 1950,
                  networkBandwidth := 500, networkUsage := 400 } := by decide

/-- Claim C3 (amended): a five-field line is rejected with the
wrong-field-count error, but a seven-field line is never rejected for its
field count — `src/main.go` adopts the tolerant at-least-six semantics —
and the outcome on a fixed line is deterministic, the parser being a pure
function. -/
theorem c3_field_count :
    (∀ line : String, (splitSep ',' line.data).length = 5 →
        parseStatsLine line = Except.error (FetchError.formatError 5)) ∧
    (∀ line : String, (splitSep ',' line.data).length = 7 →
        ∀ n, parseStatsLine line ≠ Except.error (FetchError.formatError n)) := by
  constructor
  · exact parseStatsLine_short
  · intro line h n
    rcases hvs : splitSep ',' line.data with
        _ | ⟨a, _ | ⟨b, _ | ⟨c, _ | ⟨d, _ | ⟨e, _ | ⟨f, t⟩⟩⟩⟩⟩⟩ <;> rw [hvs] at h <;>
      first
        | exact parseStatsLine_no_format_of_six line a b c d e f t hvs n
        | simp_all

/-- Claim C3 witness: a concrete five-field line is rejected with the
wrong-field-count error. -/
theorem c3_field_count_witness :
    parseStatsLine "1,2,3,4,5" = Except.error (FetchError.formatError 5) :=
  c3_field_count.1 "1,2,3,4,5" (by decide)

/-- Claim C7: the poll loop increments the consecutive-error counter on
each fetch failure and resets it on each success; three consecutive
failures from a fresh counter print "Unable to fetch server statistic"
exactly once, after which the loop terminates (the fail-stop policy of
`src/main.go`), processing none of the remaining trace. -/
theorem pollLoop_failure (c : Nat) (rest : List FetchOutcome) :
    pollLoop c (FetchOutcome.failure :: rest) =
      OutputLine.errorFetching ::
        (if c + 1 ≥ maxErrors then [OutputLine.unableToFetch] else pollLoop (c + 1) rest) := rfl

theorem c7_error_ceiling :
    (∀ (c : Nat) (rest : List FetchOutcome), c + 1 < maxErrors →
        pollLoop c (FetchOutcome.failure :: rest) =
          OutputLine.errorFetching :: pollLoop (c + 1) rest) ∧
    (∀ (s : ServerStats) (c : Nat) (rest : List FetchOutcome),
        pollLoop c (FetchOutcome.success s :: rest) =
          (checkThresholds s).map OutputLine.warning ++ pollLoop 0 rest) ∧
    (∀ rest : List FetchOutcome,
        pollLoop 0 (FetchOutcome.failure :: FetchOutcome.failure :: FetchOutcome.failure :: rest) =
          [OutputLine.errorFetching, OutputLine.errorFetching, OutputLine.errorFetching,
           OutputLine.unableToFetch]) ∧
    (∀ rest : List FetchOutcome,
        (pollLoop 0 (FetchOutcome.failure :: FetchOutcome.failure :: FetchOutcome.failure :: rest)).count
          OutputLine.unableToFetch = 1) := by
  have h1 : ∀ (c : Nat) (rest : List FetchOutcome), c + 1 < maxErrors →
      pollLoop c (FetchOutcome.failure :: rest) =
        OutputLine.errorFetching :: pollLoop (c + 1) rest := by
    intro c rest h
    rw [pollLoop_failure, if_neg (by omega)]
  have h3 : ∀ rest : List FetchOutcome,
      pollLoop 0 (FetchOutcome.failure :: FetchOutcome.failure :: FetchOutcome.failure :: rest) =
        [OutputLine.errorFetching, OutputLine.errorFetching, OutputLine.errorFetching,
         OutputLine.unableToFetch] := by
    intro rest
    rw [h1 0 _ (by norm_num [maxErrors]), h1 1 _ (by norm_num [maxErrors]),
      pollLoop_failure, if_pos (by norm_num [maxErrors])]
  exact ⟨h1, fun s c rest => rfl, h3, fun rest => by rw [h3 rest]; rfl⟩

/-- Claim C7 witness: a single failure from a fresh counter prints the
fetch-error line and keeps polling. -/
theorem c7_error_ceiling_witness :
    pollLoop 0 [FetchOutcome.failure] = [OutputLine.errorFetching] := by
  have h := c7_error_ceiling.1 0 [] (by norm_num [maxErrors])
  simpa [pollLoop] using h
